import Mathlib

set_option maxRecDepth 40000

/-!
Verification of the nexus MCP server (token manager, entity-type resolution,
style advisor, auto-layout, tool dispatch) against its specification.

The TypeScript sources are embedded shallowly: machine timestamps are `Int`
(epoch milliseconds), JavaScript truthiness on optional strings / numbers is
made explicit, promises are modelled by explicit outcome values, and the
single-threaded event loop is modelled by atomic steps between `await`
suspension points.
-/

/-- JavaScript truthiness of a possibly-absent string (`undefined`, `""` are falsy). -/
def strTruthy : Option String → Bool
  | none => false
  | some s => !s.isEmpty

/-- JavaScript truthiness of a possibly-absent number (`undefined`, `0` are falsy). -/
def intTruthy : Option Int → Bool
  | none => false
  | some n => n != 0

/-- Model of `String.prototype.trim`: drop whitespace from both ends. -/
def jsTrim (s : String) : String :=
  ⟨(((s.toList.dropWhile Char.isWhitespace).reverse.dropWhile Char.isWhitespace).reverse)⟩

/-- Model of `String.prototype.toLowerCase` (ASCII; all catalog data is ASCII). -/
def jsToLower (s : String) : String :=
  ⟨s.toList.map Char.toLower⟩

/-- `leadMatch n h` is true when list `n` is an initial segment of list `h`. -/
def leadMatch : List Char → List Char → Bool
  | [], _ => true
  | _ :: _, [] => false
  | x :: xs, y :: ys => x == y && leadMatch xs ys

/-- Model of `String.prototype.includes`: `containsSub hay need` is true when
`need` occurs as a contiguous substring of `hay`. -/
def containsSub (hay need : String) : Bool :=
  (List.range (hay.toList.length + 1)).any
    (fun i => leadMatch need.toList (hay.toList.drop i))

/-!
Section: `levDist` (src/mcp-server/server.ts lines 477-494)

The source fills an `(m+1) × (n+1)` table with
`dp[i][j] = if a[i-1] == b[j-1] then dp[i-1][j-1] else 1 + min(dp[i-1][j], dp[i][j-1], dp[i-1][j-1])`,
`dp[i][0] = i`, `dp[0][j] = j`. We compute the same table one row at a time.
-/

/-- Compute row `i` of the edit-distance table from row `i-1`.
Arguments: character `a[i-1]`; remaining characters of `b`; the already-computed
cell `dp[i][j-1]`; the suffix `dp[i-1][j-1..]` of the previous row. -/
def levRowAux (x : Char) : List Char → Nat → List Nat → List Nat
  | [], _, _ => []
  | _ :: _, _, [] => []
  | yc :: bs, left, diag :: rest =>
    let up := rest.headD 0
    let cell := if x == yc then diag else 1 + min (min up left) diag
    cell :: levRowAux x bs cell rest

/-- Final row of the edit-distance table for word `a` against word `b`. -/
def levFinalRow (a b : List Char) : List Nat :=
  a.foldl
    (fun prev x =>
      let first := prev.headD 0 + 1
      first :: levRowAux x b first prev)
    (List.range (b.length + 1))

/-- `levDist` embeds `levenshtein` from the source: classic edit distance (insertions, deletions,
substitutions each cost 1), read off as `dp[m][n]`. -/
def levDist (a b : String) : Nat :=
  (levFinalRow a.toList b.toList).getLastD 0

/-!
Section: Entity-type resolution (src/mcp-server/server.ts lines 463-522)
-/

/-- `VALID_ENTITY_TYPES` from the source, in declaration order. -/
def VALID_ENTITY_TYPES : List String :=
  ["heisenberg", "bassline", "machiniste", "tonematrix", "stompboxDelay"]

/-- `ENTITY_TYPE_ALIASES` from the source, in declaration order. -/
def ENTITY_TYPE_ALIASES : List (String × String) :=
  [("machinedrum", "machiniste"),
   ("drum machine", "machiniste"),
   ("drummachine", "machiniste")]

/-- Alias-table lookup (`ENTITY_TYPE_ALIASES[lower]`). -/
def aliasLookup (lower : String) : Option String :=
  (ENTITY_TYPE_ALIASES.find? (fun kv => kv.1 == lower)).map (fun kv => kv.2)

/-- Fuzzy step shared by the code and the claimed procedure: scan `catalog`
keeping the first entry of strictly smallest `levDist` distance to `lower`,
comparing against `jsToLower` of each entry when `lowerEntries` is set;
accept the best entry only when its distance is at most 3. -/
def fuzzyBest (lowerEntries : Bool) (lower : String) (catalog : List String) : Option String :=
  let best := catalog.foldl
    (fun acc t =>
      let d := levDist lower (if lowerEntries then jsToLower t else t)
      match acc with
      | none => some (t, d)
      | some (bt, bd) => if d < bd then some (t, d) else some (bt, bd))
    none
  match best with
  | some (t, d) => if d ≤ 3 then some t else none
  | none => none

/-- `resolveEntityType` from the source: trim, exact match, alias lookup on the
lower-cased trimmed input, case-insensitive match, then fuzzy match (threshold 3)
against the lower-cased catalog entries. -/
def resolveEntityType (input : String) : Option String :=
  let trimmed := jsTrim input
  if VALID_ENTITY_TYPES.contains trimmed then some trimmed
  else
    let lower := jsToLower trimmed
    match aliasLookup lower with
    | some t => some t
    | none =>
      match VALID_ENTITY_TYPES.find? (fun t => jsToLower t == lower) with
      | some t => some t
      | none => fuzzyBest true lower VALID_ENTITY_TYPES

/-- The resolution procedure exactly as the claim words it (no trimming; fuzzy
distance measured against the catalog entries as written): (1) exact match,
(2) alias lookup on the lower-cased input, (3) case-insensitive match,
(4) fuzzy match accepting a minimum distance of at most 3. -/
def resolveEntityTypeClaimed (input : String) : Option String :=
  if VALID_ENTITY_TYPES.contains input then some input
  else
    let lower := jsToLower input
    match aliasLookup lower with
    | some t => some t
    | none =>
      match VALID_ENTITY_TYPES.find? (fun t => jsToLower t == lower) with
      | some t => some t
      | none => fuzzyBest false lower VALID_ENTITY_TYPES

/-- The claimed procedure amended minimally: fuzzy distances are measured
against the lower-cased catalog entries. The code applies this procedure to
the trimmed input. -/
def resolveEntityTypeClaimedLC (input : String) : Option String :=
  if VALID_ENTITY_TYPES.contains input then some input
  else
    let lower := jsToLower input
    match aliasLookup lower with
    | some t => some t
    | none =>
      match VALID_ENTITY_TYPES.find? (fun t => jsToLower t == lower) with
      | some t => some t
      | none => fuzzyBest true lower VALID_ENTITY_TYPES

/-!
Section: Style advisor (src/mcp-server/server.ts lines 1163-1274)

`STYLE_MAP` is a JavaScript object with non-numeric string keys, so
`Object.entries` yields its entries in declaration order; we embed it as an
ordered association list keyword ↦ (entityType, reason).
-/

/-- `STYLE_MAP` from the source, in declaration order. -/
def STYLE_MAP : List (String × String × String) :=
  [("bass", "bassline",
    "Bass-heavy sound is best served by the bassline monophonic synth."),
   ("acid", "bassline",
    "Acid sounds (303-style) map to the bassline synth."),
   ("sub", "bassline",
    "Sub-bass frequencies are the domain of the bassline synth."),
   ("daft punk", "bassline",
    "Daft Punk frequently uses monophonic synth bass lines."),
   ("techno", "machiniste",
    "Techno is driven by drum machine patterns."),
   ("drum", "machiniste",
    "Drum / beat requests map to the machiniste drum machine."),
   ("beat", "machiniste",
    "Beat / rhythm requests map to the machiniste drum machine."),
   ("percussion", "machiniste",
    "Percussion requests map to the machiniste drum machine."),
   ("hip hop", "machiniste",
    "Hip hop relies on drum machine beats."),
   ("trap", "machiniste",
    "Trap is driven by drum machine patterns."),
   ("pad", "heisenberg",
    "Pads and atmospheric textures map to the heisenberg polyphonic synth."),
   ("chord", "heisenberg",
    "Chords need a polyphonic synth like heisenberg."),
   ("ambient", "heisenberg",
    "Ambient / atmospheric sounds map to heisenberg."),
   ("lead", "heisenberg",
    "Lead synth melodies map to heisenberg."),
   ("keys", "heisenberg",
    "Keyboard / keys parts map to heisenberg."),
   ("piano", "heisenberg",
    "Piano-like polyphonic parts map to heisenberg."),
   ("arpeggio", "tonematrix",
    "Arpeggios and sequenced patterns map to the tonematrix."),
   ("loop", "tonematrix",
    "Melodic loops and generative patterns map to the tonematrix."),
   ("sequence", "tonematrix",
    "Step-sequenced patterns map to the tonematrix."),
   ("delay", "stompboxDelay",
    "Delay / echo effects map to the stompboxDelay."),
   ("echo", "stompboxDelay",
    "Echo effects map to the stompboxDelay."),
   ("space", "stompboxDelay",
    "Spacey / spatial effects map to the stompboxDelay."),
   ("reverb", "stompboxDelay",
    "Reverb-like spatial effects can be approximated with stompboxDelay.")]

/-- The fixed default recommendation returned when no keyword matches. -/
def defaultStyleRec : String × String :=
  ("heisenberg",
   "Heisenberg is the most versatile synth and a good default for unrecognised styles.")

/-- `recommendEntityForStyle` from the source: lower-case the description and
return the first `STYLE_MAP` entry whose keyword occurs in it, else the default. -/
def recommendEntityForStyle (description : String) : String × String :=
  let lower := jsToLower description
  match STYLE_MAP.find? (fun kv => containsSub lower kv.1) with
  | some kv => kv.2
  | none => defaultStyleRec

/-- The style-advisor contract exactly as the claim words it: among the
keyword-table entries whose key is a substring of the lower-cased input, the
first in table order wins; with no match, the fixed default is returned. -/
def recommendEntityForStyleClaimed (description : String) : String × String :=
  let lower := jsToLower description
  match (STYLE_MAP.filter (fun kv => containsSub lower kv.1)).head? with
  | some kv => kv.2
  | none => defaultStyleRec

/-!
Section: TokenManager (src/mcp-server/token-manager.ts)

One caller's `getToken()` is modelled as a function of the manager state, the
two `Date.now()` readings (the expiry check at line 39 and the `expires_in`
conversion at line 114), and the outcome of the `fetch` to the token endpoint.
The stored `refreshPromise` is either absent, pending (a refresh in flight,
possible only while callers are suspended), or a retained *rejected* promise:
`isExpired` at line 39 is `now ≥ expiresAt − buffer`, so `!isExpired` is the
negation tested in the first branch.
line 59 (`this.refreshPromise = undefined`) runs only when the `await` at
line 58 does not throw, so a rejected promise is never cleared.
-/

def TOKEN_ENDPOINT : String := "https://oauth.audiotool.com/oauth2/token"

def TOKEN_EXPIRY_BUFFER_MS : Int := 60000

/-- State of the stored `refreshPromise` between event-loop turns. -/
inductive RefreshCell where
  | pending
  | rejected (msg : String)
deriving DecidableEq, Repr

/-- The `TokenManager` instance fields. -/
structure TokenManager where
  accessToken : String
  expiresAt : Int
  refreshToken : Option String
  clientId : String
  refreshPromise : Option RefreshCell
deriving DecidableEq, Repr

/-- JSON body of a token-endpoint response, each field possibly absent. -/
structure TokenResponseBody where
  error : Option String
  error_description : Option String
  access_token : Option String
  refresh_token : Option String
  expires_in : Option Int
deriving DecidableEq, Repr

/-- Outcome of the `fetch` to the token endpoint: a response with `ok` status
and a JSON body, or a non-success status. Transport-level rejection is the
`httpFail` case as well (both throw before any state update). -/
inductive HttpResponse where
  | httpOk (body : TokenResponseBody)
  | httpFail (status : Nat) (statusText : String)
deriving DecidableEq, Repr

/-- The form-encoded request `refreshAccessToken` sends, when it sends one. -/
structure RefreshRequest where
  url : String
  method : String
  contentType : String
  fields : List (String × String)
deriving DecidableEq, Repr

/-- The request built at lines 78-88 of token-manager.ts: sent exactly when a
refresh token is held (line 74 throws before `fetch` otherwise). -/
def TokenManager.refreshRequest (st : TokenManager) : Option RefreshRequest :=
  if strTruthy st.refreshToken then
    some { url := TOKEN_ENDPOINT
           method := "POST"
           contentType := "application/x-www-form-urlencoded"
           fields := [("client_id", st.clientId),
                      ("grant_type", "refresh_token"),
                      ("refresh_token", st.refreshToken.getD "")] }
  else none

/-- `refreshAccessToken` (lines 71-117): throw (`Except.error` with the thrown
message) when no refresh token is held, on a non-ok status, or on a truthy
`error` field; otherwise update each stored field guarded by JavaScript
truthiness of the corresponding response field. -/
def TokenManager.refreshAccessToken (st : TokenManager) (nowR : Int)
    (resp : HttpResponse) : Except String TokenManager :=
  if strTruthy st.refreshToken = false then
    .error "No refresh token available"
  else
    match resp with
    | .httpFail status statusText =>
      .error ("Token refresh request failed: " ++ toString status ++ " " ++ statusText)
    | .httpOk body =>
      if strTruthy body.error then
        .error ("OAuth error: " ++
          (if strTruthy body.error_description
           then body.error_description.getD ""
           else body.error.getD ""))
      else
        .ok { st with
          accessToken :=
            if strTruthy body.access_token then body.access_token.getD "" else st.accessToken
          refreshToken :=
            if strTruthy body.refresh_token then body.refresh_token else st.refreshToken
          expiresAt :=
            if intTruthy body.expires_in
            then nowR + body.expires_in.getD 0 * 1000
            else st.expiresAt }

/-- Result of one `getToken()` call: the access token or an `Error` value. -/
inductive TokenResult where
  | token (t : String)
  | failure (msg : String)
deriving DecidableEq, Repr

/-- One complete `getToken()` call (lines 36-66), returning the result, the
manager state afterwards, and how many refresh network requests this call
caused. A stored pending promise means a refresh is in flight; this caller
then awaits it (line 52), so the returned state incorporates that refresh
resolving with outcome `resp` — at no new network cost. A stored rejected
promise rethrows when awaited, landing in the catch at line 62. -/
def TokenManager.getToken (st : TokenManager) (now nowR : Int)
    (resp : HttpResponse) : TokenResult × TokenManager × Nat :=
  if ¬ (st.expiresAt - TOKEN_EXPIRY_BUFFER_MS ≤ now) then
    (.token st.accessToken, st, 0)
  else if strTruthy st.refreshToken = false then
    (.failure "Token expired and no refresh token available", st, 0)
  else
    match st.refreshPromise with
    | some .pending =>
      match st.refreshAccessToken nowR resp with
      | .ok st' => (.token st'.accessToken, { st' with refreshPromise := none }, 0)
      | .error m =>
        (.failure ("Token refresh failed: " ++ m),
         { st with refreshPromise := some (.rejected m) }, 0)
    | some (.rejected m) =>
      (.failure ("Token refresh failed: " ++ m), st, 0)
    | none =>
      match st.refreshAccessToken nowR resp with
      | .ok st' => (.token st'.accessToken, { st' with refreshPromise := none }, 1)
      | .error m =>
        (.failure ("Token refresh failed: " ++ m),
         { st with refreshPromise := some (.rejected m) }, 1)

/-!
Section: Concurrent `getToken()` callers

JavaScript is single-threaded: the code of `getToken` from its entry to the
first `await` runs atomically. For a caller that finds `refreshPromise` unset
this prefix also runs `refreshAccessToken` up to its `await fetch(...)`, i.e.
it initiates the one network request and installs the pending promise (line
57) before suspending. A caller that finds the promise set merely suspends on
it (line 52). We model N concurrent callers as: each runs this atomic prefix
in arrival order, then the pending refresh (if any) resolves once, waking
every suspended caller.
-/

/-- Where one caller stands after its atomic prefix: already returned, the
caller that started the refresh (owner), or a caller awaiting the shared
in-flight promise (waiter). -/
inductive CallerCont where
  | done (r : TokenResult)
  | awaitOwner
  | awaitWaiter
deriving DecidableEq, Repr

/-- The atomic prefix of one `getToken()` call, with the network-request count
it causes. Starting a refresh initiates the fetch and installs the pending
promise before suspending. -/
def getTokenPrefix (st : TokenManager) (now : Int) : CallerCont × TokenManager × Nat :=
  if ¬ (st.expiresAt - TOKEN_EXPIRY_BUFFER_MS ≤ now) then
    (.done (.token st.accessToken), st, 0)
  else if strTruthy st.refreshToken = false then
    (.done (.failure "Token expired and no refresh token available"), st, 0)
  else
    match st.refreshPromise with
    | some .pending => (.awaitWaiter, st, 0)
    | some (.rejected m) => (.done (.failure ("Token refresh failed: " ++ m)), st, 0)
    | none => (.awaitOwner, { st with refreshPromise := some .pending }, 1)

/-- Run the atomic prefixes of `n` concurrent callers in arrival order. -/
def runPrefixes (n : Nat) (st : TokenManager) (now : Int) :
    List CallerCont × TokenManager × Nat :=
  match n with
  | 0 => ([], st, 0)
  | n + 1 =>
    let (c, st', k) := getTokenPrefix st now
    let (cs, st'', k') := runPrefixes n st' now
    (c :: cs, st'', k + k')

/-- Resolve the in-flight refresh (if one is pending) and resume every
suspended caller. On success the owner clears the promise (line 59) and each
caller returns the now-stored access token; on rejection every caller lands in
its catch (line 62) and the rejected promise stays stored. A suspended caller
with no pending refresh never resumes (unreachable from `runPrefixes`). -/
def completeRun (cs : List CallerCont) (st : TokenManager) (nowR : Int)
    (resp : HttpResponse) : List TokenResult × TokenManager :=
  match st.refreshPromise with
  | some .pending =>
    (match st.refreshAccessToken nowR resp with
     | .ok st' =>
       (cs.map (fun c => match c with
         | .done r => r
         | _ => .token st'.accessToken),
        { st' with refreshPromise := none })
     | .error m =>
       (cs.map (fun c => match c with
         | .done r => r
         | _ => .failure ("Token refresh failed: " ++ m)),
        { st with refreshPromise := some (.rejected m) }))
  | _ =>
    (cs.map (fun c => match c with
      | .done r => r
      | _ => .failure "pending refresh never resolves"), st)

/-- `n` concurrent `getToken()` callers: the list of their results, the final
manager state, and the total number of refresh network requests made. -/
def TokenManager.getTokenConcurrent (st : TokenManager) (n : Nat) (now nowR : Int)
    (resp : HttpResponse) : List TokenResult × TokenManager × Nat :=
  let (cs, st', k) := runPrefixes n st now
  let (rs, st'') := completeRun cs st' nowR resp
  (rs, st'', k)

/-- A sequence of separate `getToken()` calls, each with its own clock readings
and network outcome, run back to back. -/
def TokenManager.runCalls (st : TokenManager) :
    List (Int × Int × HttpResponse) → List TokenResult × TokenManager × Nat
  | [] => ([], st, 0)
  | (now, nowR, resp) :: rest =>
    let (r, st', k) := st.getToken now nowR resp
    let (rs, st'', k') := st'.runCalls rest
    (r :: rs, st'', k + k')

/-!
Section: Connection waiter (src/mcp-server/server.ts lines 653-675)

The wait during session initialization: if `document.connected.getValue()` is
already true, resolve at once (no subscription is created). Otherwise
subscribe — passing `false`, so the current value is not replayed — and also
arm a 10 000 ms timer. The observable is modelled as its current value plus
the timestamped notifications it will deliver, in delivery order; the timer
event is slotted among them according to the timestamps. The subscription
callback resolves the promise and terminates the subscription on the first
`true` notification; the timer handler terminates the subscription and rejects
(a no-op if the promise is already settled).
-/

/-- A document's `connected` observable: the value `getValue()` returns now,
and the timestamped boolean notifications delivered after subscription. -/
structure ConnObservable where
  current : Bool
  notifs : List (Int × Bool)
deriving DecidableEq, Repr

/-- How the wait ends. -/
inductive WaitOutcome where
  | resolvedOk
  | timedOut (msg : String)
deriving DecidableEq, Repr

/-- Whether a subscription was created, and whether it was released. -/
inductive SubState where
  | neverCreated
  | active
  | terminated
deriving DecidableEq, Repr

/-- Events the waiter observes after subscribing. -/
inductive WaiterEvent where
  | notify (b : Bool)
  | timerFire
deriving DecidableEq, Repr

/-- Waiter state: promise settlement and subscription status. -/
structure WaiterState where
  settled : Option WaitOutcome
  sub : SubState
deriving DecidableEq, Repr

/-- One event: the subscription callback fires only while the subscription is
live, resolving and terminating on a `true` value; the timer terminates the
subscription and rejects if nothing settled the promise yet. -/
def waiterStep (s : WaiterState) (e : WaiterEvent) : WaiterState :=
  match e with
  | .notify b =>
    match s.sub, s.settled, b with
    | .active, none, true => { settled := some .resolvedOk, sub := .terminated }
    | _, _, _ => s
  | .timerFire =>
    { settled :=
        (match s.settled with
         | none => some (.timedOut "Connection timeout after 10 seconds")
         | some o => some o)
      sub := .terminated }

/-- The delivery order of events: notifications timestamped before 10 000 ms,
then the timer, then the rest. -/
def waiterTimeline (notifs : List (Int × Bool)) : List WaiterEvent :=
  ((notifs.filter (fun p => decide (p.1 < 10000))).map (fun p => WaiterEvent.notify p.2))
    ++ [WaiterEvent.timerFire]
    ++ ((notifs.filter (fun p => !decide (p.1 < 10000))).map (fun p => WaiterEvent.notify p.2))

/-- The whole `waitForConnection` promise: outcome and final subscription
status. -/
def waitForConnection (obs : ConnObservable) : WaitOutcome × SubState :=
  if obs.current then (.resolvedOk, .neverCreated)
  else
    let final := (waiterTimeline obs.notifs).foldl waiterStep
      { settled := none, sub := .active }
    (final.settled.getD (.timedOut "Connection timeout after 10 seconds"), final.sub)

/-!
Section: Server state and tool handlers (src/mcp-server/server.ts)

Each registered tool's handler is embedded as a function of its arguments, an
environment describing the outcomes of the external operations it awaits, and
the module-level state (`audiotoolClient`, `document`, `autoLayoutOffset`).
Its value is `Except.ok` a `ToolResult` when the handler returns, and
`Except.error` when an exception escapes the handler; the (possibly mutated)
module state is returned alongside either way. Diagnostic `console.error`
traces are not modelled.
-/

/-- One `{type: "text", text}` content item of a tool result. -/
structure ToolContent where
  type : String
  text : String
deriving DecidableEq, Repr

/-- The structured value returned across the tool boundary; a missing
`isError` field is `false`. -/
structure ToolResult where
  content : List ToolContent
  isError : Bool
deriving DecidableEq, Repr

/-- A successful tool result carrying one text item. -/
def textResult (s : String) : ToolResult :=
  { content := [⟨"text", s⟩], isError := false }

/-- A caught-failure tool result carrying one text item and `isError: true`. -/
def errorResult (s : String) : ToolResult :=
  { content := [⟨"text", s⟩], isError := true }

/-- The open document handle as later tools observe it: the current value of
its `connected` observable. -/
structure DocHandle where
  connected : Bool
deriving DecidableEq, Repr

/-- Module-level mutable state of server.ts: whether `audiotoolClient` is set,
the open `document`, and `autoLayoutOffset`. -/
structure ServerState where
  haveClient : Bool
  document : Option DocHandle
  autoLayoutOffset : Nat
deriving DecidableEq, Repr

/-- `getDocument` (lines 545-561): throws when no document is open or when the
document reports itself disconnected. -/
def getDocument (st : ServerState) : Except String DocHandle :=
  match st.document with
  | none =>
    .error "No document open. Use the 'initialize-session' tool to open a project first."
  | some d =>
    if d.connected = false then
      .error "Document is not connected. The connection may have been lost."
    else .ok d

/-- Outcomes of the awaited operations inside the initialize-session handler:
client creation, document creation, `document.start()`, and the connectivity
observable the connection wait uses. -/
structure InitEnv where
  createClientRes : Except String Unit
  createDocRes : Except String Unit
  startRes : Except String Unit
  conn : ConnObservable
deriving Repr

/-- The initialize-session handler (lines 565-693). Its catch block logs and
**re-throws** (line 690), so every failure of an awaited step — including the
connection timeout — escapes the handler as `Except.error`. -/
def initSessionTool (projectUrl : String) (env : InitEnv) (st : ServerState) :
    Except String ToolResult × ServerState :=
  match env.createClientRes with
  | .error m => (.error m, st)
  | .ok _ =>
    let st1 := { st with haveClient := true }
    match env.createDocRes with
    | .error m => (.error m, st1)
    | .ok _ =>
      let st2 := { st1 with document := some ⟨env.conn.current⟩ }
      match env.startRes with
      | .error m => (.error m, st2)
      | .ok _ =>
        match waitForConnection env.conn with
        | (.timedOut m, _) => (.error m, st2)
        | (.resolvedOk, _) =>
          (.ok (textResult
             ("Session initialized successfully. Document synced and ready for project: "
               ++ projectUrl)),
           { st2 with document := some ⟨true⟩ })

/-- Outcomes of the awaited operations on the open-document path: the login
status lookup (rejection or its `loggedIn` flag), client creation, document
creation and start, and the connectivity the new document reports. -/
structure OpenEnv where
  loginRes : Except String Bool
  createClientRes : Except String Unit
  createDocRes : Except String Unit
  startRes : Except String Unit
  docConnected : Bool
deriving Repr

/-- `getClient` (lines 525-543): reuse the stored client, or look up the login
status and create one; throws when not logged in or when a step rejects. -/
def getClient (env : OpenEnv) (st : ServerState) : Except String Unit × ServerState :=
  if st.haveClient then (.ok (), st)
  else
    match env.loginRes with
    | .error m => (.error m, st)
    | .ok loggedIn =>
      if loggedIn = false then
        (.error "User not logged in. Log into Audiotool first.", st)
      else
        match env.createClientRes with
        | .error m => (.error m, st)
        | .ok _ => (.ok (), { st with haveClient := true })

/-- The open-document handler (lines 696-745): every failure is caught and
returned as a ToolResult with `isError: true`. -/
def openDocumentTool (projectURL : Option String) (env : OpenEnv) (st : ServerState) :
    Except String ToolResult × ServerState :=
  let failRes := fun (m : String) => errorResult ("Failed to open document: " ++ m)
  match getClient env st with
  | (.error m, st') => (.ok (failRes m), st')
  | (.ok _, st') =>
    match env.createDocRes with
    | .error m => (.ok (failRes m), st')
    | .ok _ =>
      let st'' := { st' with document := some ⟨env.docConnected⟩ }
      match env.startRes with
      | .error m => (.ok (failRes m), st'')
      | .ok _ =>
        (.ok (textResult
           (match projectURL with
            | some p => "Opened document for project: " ++ p
            | none => "Project opened successfully")),
         st'')

/-- Arguments of one add-entity call. -/
structure AddArgs where
  entityType : String
  x : Option Int
  y : Option Int
deriving DecidableEq, Repr

/-- Outcome of the `doc.modify` transaction of add-entity: the inner callback
created an entity, `t.create` returned undefined, the inner callback threw
(caught by the inner catch, surfaced as `{error}`), or the `modify` promise
itself rejected. -/
inductive AddModify where
  | created (id : String)
  | createdUndefined
  | innerThrew (msg : String)
  | rejected (msg : String)
deriving DecidableEq, Repr

/-- Core of the add-entity handler (lines 782-858), up to result formatting:
resolve the type (throwing an enumerated-types error on failure), fill in
auto-layout coordinates for omitted `x`/`y`, increment `autoLayoutOffset`,
require a connected document, and run the transaction. Returns the resolved
type, the created entity id, and the position used. -/
def addEntityCore (a : AddArgs) (m : AddModify) (st : ServerState) :
    Except String (String × String × Int × Int) × ServerState :=
  match resolveEntityType a.entityType with
  | none =>
    (.error ("Unknown entity type: '" ++ a.entityType ++ "'. Valid types: "
      ++ String.intercalate ", " VALID_ENTITY_TYPES), st)
  | some t =>
    let posX : Int := a.x.getD ((st.autoLayoutOffset : Int) * 120)
    let posY : Int := a.y.getD 0
    let st1 := { st with autoLayoutOffset := st.autoLayoutOffset + 1 }
    match getDocument st1 with
    | .error m' => (.error m', st1)
    | .ok _ =>
      match m with
      | .created id => (.ok (t, id, posX, posY), st1)
      | .createdUndefined =>
        (.error "Failed to create entity: t.create returned undefined", st1)
      | .innerThrew msg => (.error msg, st1)
      | .rejected msg => (.error msg, st1)

/-- The add-entity handler: wrap the core outcome in the structured result,
every failure caught (`isError: true`). -/
def addEntityTool (a : AddArgs) (m : AddModify) (st : ServerState) :
    Except String ToolResult × ServerState :=
  match addEntityCore a m st with
  | (.ok (t, id, x, y), st') =>
    (.ok (textResult ("Added " ++ t ++ " at position (" ++ toString x ++ ", "
       ++ toString y ++ "). Entity ID: " ++ id)), st')
  | (.error msg, st') =>
    (.ok (errorResult ("Failed to add entity: " ++ msg)), st')

/-- Outcome of the remove-entity transaction. -/
inductive RemoveModify where
  | removed
  | innerThrew (msg : String)
  | rejected (msg : String)
deriving DecidableEq, Repr

/-- The remove-entity handler (lines 879-944). -/
def removeEntityTool (entityID : String) (_removeDependencies : Bool)
    (m : RemoveModify) (st : ServerState) : Except String ToolResult × ServerState :=
  let failRes := fun (msg : String) => errorResult ("Failed to remove entity: " ++ msg)
  match getDocument st with
  | .error m' => (.ok (failRes m'), st)
  | .ok _ =>
    match m with
    | .removed =>
      (.ok (textResult ("Removed entity with ID " ++ entityID)), st)
    | .innerThrew msg => (.ok (failRes msg), st)
    | .rejected msg => (.ok (failRes msg), st)

/-- Outcome of the update-entity-value transaction: entity lookup misses,
field lookup misses, `t.update` throws, the transaction succeeds, or the
`modify` promise rejects. -/
inductive UpdateValueModify where
  | entityMissing
  | fieldMissing
  | updateThrew (msg : String)
  | updated
  | rejected (msg : String)
deriving DecidableEq, Repr

/-- The update-entity-value handler (lines 946-1027). -/
def updateEntityValueTool (entityID fieldName : String) (value : Int)
    (m : UpdateValueModify) (st : ServerState) : Except String ToolResult × ServerState :=
  let failRes := fun (msg : String) =>
    errorResult ("Failed to update entity value: " ++ msg)
  match getDocument st with
  | .error m' => (.ok (failRes m'), st)
  | .ok _ =>
    match m with
    | .entityMissing => (.ok (failRes ("Entity with ID " ++ entityID ++ " not found")), st)
    | .fieldMissing =>
      (.ok (failRes ("Field '" ++ fieldName ++ "' not found on entity " ++ entityID)), st)
    | .updateThrew msg => (.ok (failRes msg), st)
    | .rejected msg => (.ok (failRes msg), st)
    | .updated =>
      (.ok (textResult ("Updated " ++ fieldName ++ " of entity " ++ entityID
         ++ " to " ++ toString value)), st)

/-- Outcome of the update-entity-position transaction. -/
inductive UpdatePositionModify where
  | entityMissing
  | positionFieldsMissing
  | updateThrew (msg : String)
  | updated
  | rejected (msg : String)
deriving DecidableEq, Repr

/-- The update-entity-position handler (lines 1029-1103). -/
def updateEntityPositionTool (entityID : String) (x y : Int)
    (m : UpdatePositionModify) (st : ServerState) : Except String ToolResult × ServerState :=
  let failRes := fun (msg : String) => errorResult ("Failed to move entity: " ++ msg)
  match getDocument st with
  | .error m' => (.ok (failRes m'), st)
  | .ok _ =>
    match m with
    | .entityMissing => (.ok (failRes ("Entity with ID " ++ entityID ++ " not found")), st)
    | .positionFieldsMissing =>
      (.ok (failRes ("Entity " ++ entityID ++ " does not have positionX/positionY fields")), st)
    | .updateThrew msg => (.ok (failRes msg), st)
    | .rejected msg => (.ok (failRes msg), st)
    | .updated =>
      (.ok (textResult ("Moved entity " ++ entityID ++ " to position ("
         ++ toString x ++ ", " ++ toString y ++ ")")), st)

/-- An entity as returned by `queryEntities`: id, type, and its positional
field values when present. -/
structure EntityInfo where
  id : String
  entityType : String
  positionX : Option Int
  positionY : Option Int
deriving DecidableEq, Repr

/-- Rendering of one projected entity (abstracts `JSON.stringify`). -/
def renderEntity (e : EntityInfo) : String :=
  "\x7bid: " ++ e.id ++ ", type: " ++ e.entityType
    ++ ", positionX: " ++ (match e.positionX with | some v => toString v | none => "null")
    ++ ", positionY: " ++ (match e.positionY with | some v => toString v | none => "null")
    ++ "\x7d"

/-- The list-entities handler (lines 1106-1160): filter to catalog-typed
entities, project, and render; an explicit message when none remain. -/
def listEntitiesTool (entities : List EntityInfo) (st : ServerState) :
    Except String ToolResult × ServerState :=
  match getDocument st with
  | .error m' =>
    (.ok (errorResult ("Failed to list entities: " ++ m')), st)
  | .ok _ =>
    let kept := entities.filter (fun e => VALID_ENTITY_TYPES.contains e.entityType)
    (.ok (textResult
       (if kept.length > 0
        then String.intercalate "\n" (kept.map renderEntity)
        else "No entities found in the project.")), st)

/-- The recommend-entity-for-style handler (lines 1276-1307): delegates to the
pure `recommendEntityForStyle`; no catch is needed, nothing can throw. -/
def recommendEntityTool (description : String) (st : ServerState) :
    Except String ToolResult × ServerState :=
  let rec_ := recommendEntityForStyle description
  (.ok (textResult ("\x7bentityType: " ++ rec_.1 ++ ", reason: " ++ rec_.2 ++ "\x7d")), st)

/-- One invocation of a registered tool, with its arguments. -/
inductive ToolCall where
  | initSession (projectUrl : String)
  | openDocument (projectURL : Option String)
  | addEntity (a : AddArgs)
  | removeEntity (entityID : String) (removeDependencies : Bool)
  | updateEntityValue (entityID fieldName : String) (value : Int)
  | updateEntityPosition (entityID : String) (x y : Int)
  | listEntities
  | recommendStyle (description : String)
deriving DecidableEq, Repr

/-- Environment of external outcomes a dispatched call may consume. -/
structure ToolEnv where
  init : InitEnv
  open_ : OpenEnv
  addM : AddModify
  removeM : RemoveModify
  updValM : UpdateValueModify
  updPosM : UpdatePositionModify
  entities : List EntityInfo
deriving Repr

/-- The tool dispatcher: route a call to its handler. -/
def dispatch (c : ToolCall) (env : ToolEnv) (st : ServerState) :
    Except String ToolResult × ServerState :=
  match c with
  | .initSession p => initSessionTool p env.init st
  | .openDocument p => openDocumentTool p env.open_ st
  | .addEntity a => addEntityTool a env.addM st
  | .removeEntity id deps => removeEntityTool id deps env.removeM st
  | .updateEntityValue id f v => updateEntityValueTool id f v env.updValM st
  | .updateEntityPosition id x y => updateEntityPositionTool id x y env.updPosM st
  | .listEntities => listEntitiesTool env.entities st
  | .recommendStyle d => recommendEntityTool d st

/-- The error flag a caller observes at the tool boundary: the `isError` field
of a returned ToolResult, and `true` when an exception escaped the handler. -/
def resultIsError : Except String ToolResult → Bool
  | .ok r => r.isError
  | .error _ => true

/-- A run of consecutive add-entity calls, threading the module state;
returns each call's core outcome. -/
def runAddEntities (st : ServerState) :
    List (AddArgs × AddModify) → List (Except String (String × String × Int × Int)) × ServerState
  | [] => ([], st)
  | (a, m) :: rest =>
    let (r, st') := addEntityCore a m st
    let (rs, st'') := runAddEntities st' rest
    (r :: rs, st'')

/-- The auto-assigned x-coordinates of the entities a run of add-entity calls
actually creates from calls that omitted both coordinates, in call order. -/
def autoPlacedXs (st : ServerState) : List (AddArgs × AddModify) → List Int
  | [] => []
  | (a, m) :: rest =>
    let (r, st') := addEntityCore a m st
    let tail := autoPlacedXs st' rest
    match r, a.x, a.y with
    | .ok (_, _, x, _), none, none => x :: tail
    | _, _, _ => tail

/-!
Section: Helper lemmas
-/

/-- A present nonempty string is truthy. -/
theorem strTruthy_some_of_ne (t : String) (h : t ≠ "") : strTruthy (some t) = true := by
  cases hc : t.isEmpty with
  | true => exact absurd ((String.isEmpty_iff t).mp hc) h
  | false => simp [strTruthy, hc]

/-- A present nonzero number is truthy. -/
theorem intTruthy_some_of_ne (e : Int) (h : e ≠ 0) : intTruthy (some e) = true := by
  simp [intTruthy, h]

/-- The first list element satisfying `p` is the head of the `p`-filtered list. -/
theorem findFirst_eq_filterHead {α : Type} (p : α → Bool) (l : List α) :
    l.find? p = (l.filter p).head? := by
  induction l with
  | nil => rfl
  | cons a t ih =>
    by_cases h : p a = true
    · rw [List.find?_cons_of_pos _ h, List.filter_cons_of_pos h]
      rfl
    · rw [List.find?_cons_of_neg _ (by simpa using h), List.filter_cons_of_neg (by simpa using h)]
      exact ih

/-!
Section: Claims
-/

/-- C4 counterexample: `resolveEntityType " machinedrum "` returns
`some "machiniste"` (the input is trimmed before the alias lookup), while the
claimed procedure — which never trims — falls through to the fuzzy step, where
every catalog entry is farther than distance 3, and returns none. -/
theorem c4_counterexample :
    resolveEntityType " machinedrum " = some "machiniste" ∧
    resolveEntityTypeClaimed " machinedrum " = none :=
  ⟨rfl, rfl⟩

/-- C4 (amended): `resolveEntityType` applies the claimed four-step order —
exact match, alias lookup on the lower-cased input, case-insensitive match,
then minimum-edit-distance fuzzy match accepted at distance ≤ 3 — to the
whitespace-trimmed input, with fuzzy distances measured against the
lower-cased catalog entries; the five named examples resolve as claimed. -/
theorem c4_resolution_order :
    (∀ s, resolveEntityType s = resolveEntityTypeClaimedLC (jsTrim s)) ∧
    resolveEntityType "heisenberg" = some "heisenberg" ∧
    resolveEntityType "HEISENBERG" = some "heisenberg" ∧
    resolveEntityType "machinedrum" = some "machiniste" ∧
    resolveEntityType "hisenberg" = some "heisenberg" ∧
    resolveEntityType "xyz123" = none :=
  ⟨fun _ => rfl, rfl, rfl, rfl, rfl, rfl⟩

/-- C5: a `getToken()` call strictly before the 60-second expiry buffer
returns the stored access token, changes no field of the credential, and makes
no network request. -/
theorem c5_fresh_token_no_network :
    ∀ (st : TokenManager) (now nowR : Int) (resp : HttpResponse),
      now < st.expiresAt - TOKEN_EXPIRY_BUFFER_MS →
      st.getToken now nowR resp = (.token st.accessToken, st, 0) := by
  intro st now nowR resp h
  have hd : ¬ (st.expiresAt - TOKEN_EXPIRY_BUFFER_MS ≤ now) := by omega
  simp [TokenManager.getToken, hd]

/-- C5 witness at a concrete fresh credential. -/
theorem c5_witness :
    TokenManager.getToken ⟨"tok", 100000, none, "cid", none⟩ 0 0 (.httpFail 500 "boom")
      = (.token "tok", ⟨"tok", 100000, none, "cid", none⟩, 0) :=
  c5_fresh_token_no_network ⟨"tok", 100000, none, "cid", none⟩ 0 0 (.httpFail 500 "boom")
    (by decide)

/-- C6: a `getToken()` call at or past the buffer with no refresh token held
returns the refresh-failure value (it never throws), makes no network request,
and leaves the stored credential unchanged. -/
theorem c6_expired_without_refresh_token :
    ∀ (st : TokenManager) (now nowR : Int) (resp : HttpResponse),
      st.expiresAt - TOKEN_EXPIRY_BUFFER_MS ≤ now →
      st.refreshToken = none →
      st.getToken now nowR resp
        = (.failure "Token expired and no refresh token available", st, 0) := by
  intro st now nowR resp h hrt
  simp [TokenManager.getToken, h, hrt, strTruthy]

/-- C6 witness at a concrete expired credential without refresh token. -/
theorem c6_witness :
    TokenManager.getToken ⟨"tok", 100000, none, "cid", none⟩ 99999999 0 (.httpFail 500 "boom")
      = (.failure "Token expired and no refresh token available",
         ⟨"tok", 100000, none, "cid", none⟩, 0) :=
  c6_expired_without_refresh_token ⟨"tok", 100000, none, "cid", none⟩ 99999999 0
    (.httpFail 500 "boom") (by decide) rfl

/-- C9: `recommendEntityForStyle` lower-cases its input and returns the first
keyword-table entry (in table order) whose key occurs in it, falling back to
the fixed default; it is a total pure function, and the two named examples
recommend as claimed. -/
theorem c9_style_recommendation :
    (∀ d, recommendEntityForStyle d = recommendEntityForStyleClaimed d) ∧
    (recommendEntityForStyle "warm ambient pad").1 = "heisenberg" ∧
    (recommendEntityForStyle "acid bassline").1 = "bassline" := by
  refine ⟨fun d => ?_, rfl, rfl⟩
  simp only [recommendEntityForStyle, recommendEntityForStyleClaimed, findFirst_eq_filterHead]

/-- C7 counterexample: a success response carrying `access_token` and
`expires_in = 0` leaves the stored `expiresAt` at its old value (5000) because
`if (data.expires_in)` is falsy at 0, while the claim dictates
`expiresAt = now + expires_in·1000 = 9000`. -/
theorem c7_counterexample :
    TokenManager.refreshAccessToken ⟨"old", 5000, some "rt", "cid", none⟩ 9000
        (.httpOk ⟨none, none, some "tok2", none, some 0⟩)
      = .ok ⟨"tok2", 5000, some "rt", "cid", none⟩ ∧
    (5000 : Int) ≠ 9000 + 0 * 1000 :=
  ⟨rfl, by decide⟩

/-- C7 (amended): a genuine refresh POSTs exactly the form fields `client_id`,
`grant_type=refresh_token` and `refresh_token` to the token endpoint; on a
success response it replaces the stored access token when `access_token` is
present and nonempty, replaces the refresh token when a rotated nonempty one is
present (keeping the old one when the field is absent), and sets
`expiresAt = now + expires_in·1000` when `expires_in` is present and nonzero —
an absent or zero `expires_in` leaves `expiresAt` unchanged; on a non-success
HTTP status, or on a payload with a nonempty `error` field, `getToken()` yields
a failure value carrying the status or the provider's error description, and
the stored access token is not replaced. -/
theorem c7_refresh_wire_contract :
    (∀ st : TokenManager, strTruthy st.refreshToken = true →
       st.refreshRequest = some ⟨TOKEN_ENDPOINT, "POST",
         "application/x-www-form-urlencoded",
         [("client_id", st.clientId), ("grant_type", "refresh_token"),
          ("refresh_token", st.refreshToken.getD "")]⟩) ∧
    (∀ (st : TokenManager) (nowR : Int) (body : TokenResponseBody),
       strTruthy st.refreshToken = true →
       strTruthy body.error = false →
       ∃ st', st.refreshAccessToken nowR (.httpOk body) = .ok st' ∧
         (∀ t, body.access_token = some t → t ≠ "" → st'.accessToken = t) ∧
         (∀ r, body.refresh_token = some r → r ≠ "" → st'.refreshToken = some r) ∧
         (body.refresh_token = none → st'.refreshToken = st.refreshToken) ∧
         (∀ e, body.expires_in = some e → e ≠ 0 → st'.expiresAt = nowR + e * 1000) ∧
         ((body.expires_in = none ∨ body.expires_in = some 0) →
            st'.expiresAt = st.expiresAt)) ∧
    (∀ (st : TokenManager) (now nowR : Int) (status : Nat) (statusText : String),
       st.expiresAt - TOKEN_EXPIRY_BUFFER_MS ≤ now →
       strTruthy st.refreshToken = true →
       st.refreshPromise = none →
       (st.getToken now nowR (.httpFail status statusText)).1
           = .failure ("Token refresh failed: "
               ++ ("Token refresh request failed: " ++ toString status ++ " " ++ statusText)) ∧
       (st.getToken now nowR (.httpFail status statusText)).2.1.accessToken
           = st.accessToken) ∧
    (∀ (st : TokenManager) (now nowR : Int) (body : TokenResponseBody) (em : String),
       st.expiresAt - TOKEN_EXPIRY_BUFFER_MS ≤ now →
       strTruthy st.refreshToken = true →
       st.refreshPromise = none →
       body.error = some em → em ≠ "" →
       (st.getToken now nowR (.httpOk body)).1
           = .failure ("Token refresh failed: "
               ++ ("OAuth error: "
                   ++ (if strTruthy body.error_description
                       then body.error_description.getD "" else em))) ∧
       (st.getToken now nowR (.httpOk body)).2.1.accessToken = st.accessToken) := by
  refine ⟨?_, ?_, ?_, ?_⟩
  · intro st hrt
    simp [TokenManager.refreshRequest, hrt]
  · intro st nowR body hrt herr
    refine ⟨{ st with
        accessToken :=
          if strTruthy body.access_token then body.access_token.getD "" else st.accessToken,
        refreshToken :=
          if strTruthy body.refresh_token then body.refresh_token else st.refreshToken,
        expiresAt :=
          if intTruthy body.expires_in
          then nowR + body.expires_in.getD 0 * 1000
          else st.expiresAt },
      ?_, ?_, ?_, ?_, ?_, ?_⟩
    · simp [TokenManager.refreshAccessToken, hrt, herr]
    · intro t ht htne
      simp only [ht]
      simp [strTruthy_some_of_ne t htne]
    · intro r hr hrne
      simp only [hr]
      simp [strTruthy_some_of_ne r hrne]
    · intro hr
      simp [strTruthy, hr]
    · intro e he hene
      simp only [he]
      simp [intTruthy_some_of_ne e hene]
    · intro he
      have h : intTruthy body.expires_in = false := by
        rcases he with h | h <;> simp [intTruthy, h]
      simp [h]
  · intro st now nowR status statusText hexp hrt hp
    simp [TokenManager.getToken, hexp, hrt, hp, TokenManager.refreshAccessToken]
  · intro st now nowR body em hexp hrt hp herr hemne
    simp [TokenManager.getToken, hexp, hrt, hp, TokenManager.refreshAccessToken,
      herr, strTruthy_some_of_ne em hemne]

/-- C7 witness: the amended contract applied to a concrete refresh. -/
theorem c7_witness :
    TokenManager.refreshRequest ⟨"old", 5000, some "rt", "cid", none⟩
      = some ⟨TOKEN_ENDPOINT, "POST", "application/x-www-form-urlencoded",
         [("client_id", "cid"), ("grant_type", "refresh_token"),
          ("refresh_token", "rt")]⟩ ∧
    (∃ st', TokenManager.refreshAccessToken ⟨"old", 5000, some "rt", "cid", none⟩ 9000
        (.httpOk ⟨none, none, some "tok2", some "rt2", some 3600⟩) = .ok st' ∧
        st'.accessToken = "tok2" ∧ st'.refreshToken = some "rt2" ∧
        st'.expiresAt = 9000 + 3600 * 1000) ∧
    (TokenManager.getToken ⟨"old", 5000, some "rt", "cid", none⟩ 99999 9000
        (.httpFail 500 "Server Error")).1
      = .failure "Token refresh failed: Token refresh request failed: 500 Server Error" := by
  refine ⟨c7_refresh_wire_contract.1 _ rfl, ?_, ?_⟩
  · obtain ⟨st', hok, hacc, hrot, -, hexp, -⟩ :=
      c7_refresh_wire_contract.2.1 ⟨"old", 5000, some "rt", "cid", none⟩ 9000
        ⟨none, none, some "tok2", some "rt2", some 3600⟩ rfl rfl
    exact ⟨st', hok, hacc "tok2" rfl (by decide), hrot "rt2" rfl (by decide),
      hexp 3600 rfl (by decide)⟩
  · exact (c7_refresh_wire_contract.2.2.1 ⟨"old", 5000, some "rt", "cid", none⟩
      99999 9000 500 "Server Error" (by decide) rfl rfl).1

/-- C10: when a refresh attempt fails, `getToken()` returns an Error value and
the rejected promise remains stored in `refreshPromise` (line 59 never runs);
thereafter every `getToken()` call made while the token is past the buffer
awaits that same rejected promise, returns the same Error value with no new
network request, and leaves the state unchanged — so one refresh failure
permanently prevents any further refresh attempt on that instance. -/
theorem c10_failed_refresh_is_permanent :
    (∀ (st : TokenManager) (now nowR : Int) (resp : HttpResponse) (m : String),
       st.expiresAt - TOKEN_EXPIRY_BUFFER_MS ≤ now →
       strTruthy st.refreshToken = true →
       st.refreshPromise = none →
       st.refreshAccessToken nowR resp = .error m →
       st.getToken now nowR resp
         = (.failure ("Token refresh failed: " ++ m),
            { st with refreshPromise := some (.rejected m) }, 1)) ∧
    (∀ (st : TokenManager) (m : String) (calls : List (Int × Int × HttpResponse)),
       st.refreshPromise = some (.rejected m) →
       strTruthy st.refreshToken = true →
       (∀ c ∈ calls, st.expiresAt - TOKEN_EXPIRY_BUFFER_MS ≤ c.1) →
       st.runCalls calls
         = (List.replicate calls.length (.failure ("Token refresh failed: " ++ m)),
            st, 0)) := by
  constructor
  · intro st now nowR resp m hexp hrt hp herr
    simp [TokenManager.getToken, hexp, hrt, hp, herr]
  · intro st m calls hp hrt hcalls
    induction calls with
    | nil => rfl
    | cons c rest ih =>
      obtain ⟨now, nowR, resp⟩ := c
      have hexp := hcalls (now, nowR, resp) (List.mem_cons_self _ _)
      have h1 : st.getToken now nowR resp
          = (.failure ("Token refresh failed: " ++ m), st, 0) := by
        simp [TokenManager.getToken, hexp, hrt, hp]
      have ih' := ih (fun c hc => hcalls c (List.mem_cons_of_mem _ hc))
      simp [TokenManager.runCalls, h1, ih', List.replicate_succ]

/-- C10 witness: a failed refresh stores the rejection, and two later expired
calls return the same error with zero further network requests. -/
theorem c10_witness :
    TokenManager.getToken ⟨"old", 5000, some "rt", "cid", none⟩ 99999 9000
        (.httpFail 500 "Server Error")
      = (.failure "Token refresh failed: Token refresh request failed: 500 Server Error",
         ⟨"old", 5000, some "rt", "cid",
          some (.rejected "Token refresh request failed: 500 Server Error")⟩, 1) ∧
    TokenManager.runCalls
        ⟨"old", 5000, some "rt", "cid",
         some (.rejected "Token refresh request failed: 500 Server Error")⟩
        [(99999, 9000, .httpFail 502 "Bad Gateway"),
         (123456, 9000, .httpOk ⟨none, none, some "fresh", none, some 3600⟩)]
      = (List.replicate 2
           (.failure "Token refresh failed: Token refresh request failed: 500 Server Error"),
         ⟨"old", 5000, some "rt", "cid",
          some (.rejected "Token refresh request failed: 500 Server Error")⟩, 0) :=
  ⟨c10_failed_refresh_is_permanent.1 _ 99999 9000 (.httpFail 500 "Server Error") _
     (by decide) rfl rfl rfl,
   c10_failed_refresh_is_permanent.2 _ _ _ rfl rfl (by decide)⟩

/-- A notification delivered after the subscription is terminated changes
nothing. -/
theorem waiterStep_notify_frozen (set : Option WaitOutcome) (b : Bool) :
    waiterStep ⟨set, .terminated⟩ (.notify b) = ⟨set, .terminated⟩ := by
  cases set <;> cases b <;> rfl

/-- A run of notifications after termination changes nothing. -/
theorem waiterFold_notify_frozen (bs : List Bool) (set : Option WaitOutcome) :
    (bs.map WaiterEvent.notify).foldl waiterStep ⟨set, .terminated⟩
      = ⟨set, .terminated⟩ := by
  induction bs with
  | nil => rfl
  | cons b t ih =>
    simp only [List.map_cons, List.foldl_cons, waiterStep_notify_frozen]
    exact ih

/-- With only `false` notifications the waiter stays unsettled and subscribed. -/
theorem waiterFold_notify_all_false (bs : List Bool) (h : ∀ b ∈ bs, b = false) :
    (bs.map WaiterEvent.notify).foldl waiterStep ⟨none, .active⟩
      = ⟨none, .active⟩ := by
  induction bs with
  | nil => rfl
  | cons b t ih =>
    have hb : b = false := h b (List.mem_cons_self b t)
    subst hb
    simp only [List.map_cons, List.foldl_cons]
    exact ih (fun b hb => h b (List.mem_cons_of_mem _ hb))

/-- A `true` notification settles the promise as resolved and terminates the
subscription, whatever follows. -/
theorem waiterFold_notify_has_true (bs : List Bool) (h : true ∈ bs) :
    (bs.map WaiterEvent.notify).foldl waiterStep ⟨none, .active⟩
      = ⟨some .resolvedOk, .terminated⟩ := by
  induction bs with
  | nil => cases h
  | cons b t ih =>
    cases b
    · have h' : true ∈ t := by
        rcases List.mem_cons.mp h with h0 | h1
        · cases h0
        · exact h1
      simp only [List.map_cons, List.foldl_cons]
      exact ih h'
    · simp only [List.map_cons, List.foldl_cons]
      have hstep : waiterStep ⟨none, .active⟩ (.notify true)
          = ⟨some .resolvedOk, .terminated⟩ := rfl
      rw [hstep]
      exact waiterFold_notify_frozen t (some .resolvedOk)

/-- C8: the connection wait resolves immediately when the observable already
reports true (no subscription is even created); otherwise it subscribes
without a replay of the current value, resolves when some `true` notification
arrives before the 10 000 ms timer, and times out with the timeout error when
none does — and on every path the subscription is released, never left
active. -/
theorem c8_connection_wait :
    ∀ obs : ConnObservable,
      (waitForConnection obs).2 ≠ SubState.active ∧
      (obs.current = true → waitForConnection obs = (.resolvedOk, .neverCreated)) ∧
      (obs.current = false →
        ((∃ p ∈ obs.notifs, p.2 = true ∧ p.1 < 10000) →
            waitForConnection obs = (.resolvedOk, .terminated)) ∧
        ((∀ p ∈ obs.notifs, p.2 = true → 10000 ≤ p.1) →
            waitForConnection obs
              = (.timedOut "Connection timeout after 10 seconds", .terminated))) := by
  intro obs
  have hsnd : ∀ l : List (Int × Bool),
      l.map (fun p => WaiterEvent.notify p.2) = (l.map Prod.snd).map WaiterEvent.notify := by
    intro l
    rw [List.map_map]
    rfl
  have hA : obs.current = false →
      (∃ p ∈ obs.notifs, p.2 = true ∧ p.1 < 10000) →
      waitForConnection obs = (.resolvedOk, .terminated) := by
    intro hc ⟨p, hp, htrue, hearly⟩
    have hmem : true ∈ (obs.notifs.filter (fun q => decide (q.1 < 10000))).map Prod.snd := by
      refine List.mem_map.mpr ⟨p, ?_, htrue⟩
      exact List.mem_filter.mpr ⟨hp, by simpa using hearly⟩
    simp only [waitForConnection, hc, Bool.false_eq_true, if_false, waiterTimeline,
      List.foldl_append, hsnd]
    rw [waiterFold_notify_has_true _ hmem]
    have htimer : [WaiterEvent.timerFire].foldl waiterStep ⟨some .resolvedOk, .terminated⟩
        = ⟨some .resolvedOk, .terminated⟩ := rfl
    rw [htimer, waiterFold_notify_frozen]
    rfl
  have hB : obs.current = false →
      (∀ p ∈ obs.notifs, p.2 = true → 10000 ≤ p.1) →
      waitForConnection obs
        = (.timedOut "Connection timeout after 10 seconds", .terminated) := by
    intro hc hall
    have hfalse : ∀ b ∈ (obs.notifs.filter (fun q => decide (q.1 < 10000))).map Prod.snd,
        b = false := by
      intro b hb
      obtain ⟨q, hq, rfl⟩ := List.mem_map.mp hb
      obtain ⟨hqmem, hqearly⟩ := List.mem_filter.mp hq
      cases hq2 : q.2
      · rfl
      · exact absurd (hall q hqmem hq2) (by simpa using hqearly)
    simp only [waitForConnection, hc, Bool.false_eq_true, if_false, waiterTimeline,
      List.foldl_append, hsnd]
    rw [waiterFold_notify_all_false _ hfalse]
    have htimer : [WaiterEvent.timerFire].foldl waiterStep ⟨none, .active⟩
        = ⟨some (.timedOut "Connection timeout after 10 seconds"), .terminated⟩ := rfl
    rw [htimer, waiterFold_notify_frozen]
    rfl
  refine ⟨?_, ?_, fun hc => ⟨hA hc, hB hc⟩⟩
  · cases hc : obs.current
    · by_cases hex : ∃ p ∈ obs.notifs, p.2 = true ∧ p.1 < 10000
      · rw [hA hc hex]
        intro h
        cases h
      · push_neg at hex
        rw [hB hc hex]
        intro h
        cases h
    · simp only [waitForConnection, hc, if_true]
      intro h
      cases h
  · intro hc
    simp [waitForConnection, hc]

/-- C8 witness: a wait that resolves on an early notification, and one that
times out, both releasing the subscription; and an already-connected document
resolving with no subscription. -/
theorem c8_witness :
    waitForConnection ⟨true, []⟩ = (.resolvedOk, .neverCreated) ∧
    waitForConnection ⟨false, [(500, false), (2000, true)]⟩ = (.resolvedOk, .terminated) ∧
    waitForConnection ⟨false, [(20000, true)]⟩
      = (.timedOut "Connection timeout after 10 seconds", .terminated) :=
  ⟨(c8_connection_wait ⟨true, []⟩).2.1 rfl,
   ((c8_connection_wait _).2.2 rfl).1 ⟨(2000, true), by decide, rfl, by decide⟩,
   ((c8_connection_wait _).2.2 rfl).2 (by decide)⟩

/-- While a refresh is pending, every further caller past the buffer becomes a
waiter on the shared promise: no state change, no network request. -/
theorem runPrefixes_pending (n : Nat) (st : TokenManager) (now : Int)
    (hexp : st.expiresAt - TOKEN_EXPIRY_BUFFER_MS ≤ now)
    (hrt : strTruthy st.refreshToken = true)
    (hp : st.refreshPromise = some .pending) :
    runPrefixes n st now = (List.replicate n .awaitWaiter, st, 0) := by
  induction n with
  | zero => rfl
  | succ m ih =>
    have hpre : getTokenPrefix st now = (.awaitWaiter, st, 0) := by
      simp [getTokenPrefix, hexp, hrt, hp]
    simp [runPrefixes, hpre, ih, List.replicate_succ]

/-- C1: with a token past the buffer, a refresh token held and no refresh in
flight, `n ≥ 1` concurrent `getToken()` callers make exactly one refresh
network request — the first caller starts it, every later caller awaits the
same pending promise — and, when the refresh succeeds with access token `t`,
all `n` callers resolve to that same post-refresh token. -/
theorem c1_single_flight_refresh :
    ∀ (st : TokenManager) (n : Nat) (now nowR : Int) (body : TokenResponseBody) (t : String),
      0 < n →
      st.expiresAt - TOKEN_EXPIRY_BUFFER_MS ≤ now →
      strTruthy st.refreshToken = true →
      st.refreshPromise = none →
      strTruthy body.error = false →
      body.access_token = some t → t ≠ "" →
      ∃ final, st.getTokenConcurrent n now nowR (.httpOk body)
          = (List.replicate n (.token t), final, 1) ∧
        final.accessToken = t ∧ final.refreshPromise = none := by
  intro st n now nowR body t hn hexp hrt hp herr hat htne
  obtain ⟨m, rfl⟩ : ∃ m, n = m + 1 := ⟨n - 1, (Nat.succ_pred_eq_of_pos hn).symm⟩
  have hta : strTruthy body.access_token = true := by
    rw [hat]
    exact strTruthy_some_of_ne t htne
  have hpre : getTokenPrefix st now
      = (.awaitOwner, { st with refreshPromise := some .pending }, 1) := by
    simp [getTokenPrefix, hexp, hrt, hp]
  have hrest : runPrefixes m { st with refreshPromise := some .pending } now
      = (List.replicate m .awaitWaiter, { st with refreshPromise := some .pending }, 0) :=
    runPrefixes_pending m _ now hexp hrt rfl
  have hok : TokenManager.refreshAccessToken
        { st with refreshPromise := some .pending } nowR (.httpOk body)
      = .ok { accessToken := t,
              expiresAt := if intTruthy body.expires_in
                           then nowR + body.expires_in.getD 0 * 1000
                           else st.expiresAt,
              refreshToken := if strTruthy body.refresh_token
                              then body.refresh_token else st.refreshToken,
              clientId := st.clientId,
              refreshPromise := some .pending } := by
    simp only [TokenManager.refreshAccessToken, hat]
    simp [hrt, herr, strTruthy_some_of_ne t htne]
  refine ⟨{ accessToken := t,
            expiresAt := if intTruthy body.expires_in
                         then nowR + body.expires_in.getD 0 * 1000
                         else st.expiresAt,
            refreshToken := if strTruthy body.refresh_token
                            then body.refresh_token else st.refreshToken,
            clientId := st.clientId,
            refreshPromise := none }, ?_, rfl, rfl⟩
  simp only [TokenManager.getTokenConcurrent, runPrefixes, hpre, hrest]
  simp only [completeRun, hok]
  simp [List.map_replicate, List.replicate_succ]

/-- C1 witness: three concurrent callers on a concrete expired credential
produce one network request and all read the refreshed token. -/
theorem c1_witness :
    ∃ final, TokenManager.getTokenConcurrent ⟨"old", 1000, some "rt", "cid", none⟩ 3
        1000000 1000001 (.httpOk ⟨none, none, some "new", some "rt2", some 3600⟩)
      = (List.replicate 3 (.token "new"), final, 1) ∧
      final.accessToken = "new" ∧ final.refreshPromise = none :=
  c1_single_flight_refresh ⟨"old", 1000, some "rt", "cid", none⟩ 3 1000000 1000001
    ⟨none, none, some "new", some "rt2", some 3600⟩ "new"
    (by decide) (by decide) rfl rfl rfl rfl (by decide)

/-- One add-entity call advances `autoLayoutOffset` by exactly one when the
entity type resolves, and leaves it untouched when resolution fails (the
increment at line 804 sits after the resolution throw at line 794 and before
`getDocument` and the transaction, so later failures still increment). -/
theorem addEntityCore_offset (a : AddArgs) (m : AddModify) (st : ServerState) :
    (addEntityCore a m st).2.autoLayoutOffset
      = if (resolveEntityType a.entityType).isSome
        then st.autoLayoutOffset + 1 else st.autoLayoutOffset := by
  cases hr : resolveEntityType a.entityType with
  | none => simp [addEntityCore, hr]
  | some t =>
    simp only [addEntityCore, hr, Option.isSome_some, if_true]
    cases hd : getDocument { st with autoLayoutOffset := st.autoLayoutOffset + 1 } with
    | error e => simp [hd]
    | ok d => cases m <;> simp [hd]

/-- A call whose core outcome is a created entity resolved its type, so it
incremented the counter; when both coordinates were omitted the entity was
placed at `(autoLayoutOffset × 120, 0)`. -/
theorem addEntityCore_ok (a : AddArgs) (m : AddModify) (st : ServerState)
    (t id : String) (x y : Int)
    (h : (addEntityCore a m st).1 = .ok (t, id, x, y)) :
    (addEntityCore a m st).2.autoLayoutOffset = st.autoLayoutOffset + 1 ∧
    (a.x = none → a.y = none →
      x = (st.autoLayoutOffset : Int) * 120 ∧ y = 0) := by
  cases hr : resolveEntityType a.entityType with
  | none => simp [addEntityCore, hr] at h
  | some t' =>
    cases hd : getDocument { st with autoLayoutOffset := st.autoLayoutOffset + 1 } with
    | error e => simp [addEntityCore, hr, hd] at h
    | ok d =>
      cases m with
      | created id' =>
        simp only [addEntityCore, hr, hd] at h
        constructor
        · simp [addEntityCore, hr, hd]
        · intro hax hay
          rw [hax, hay] at h
          obtain ⟨ht, hid, hx, hy⟩ := by simpa using h
          exact ⟨hx.symm, hy.symm⟩
      | createdUndefined => simp [addEntityCore, hr, hd] at h
      | innerThrew msg => simp [addEntityCore, hr, hd] at h
      | rejected msg => simp [addEntityCore, hr, hd] at h

/-- The auto-layout counter never decreases across a run of add-entity calls. -/
theorem runAddEntities_offset_mono :
    ∀ (calls : List (AddArgs × AddModify)) (st : ServerState),
      st.autoLayoutOffset ≤ (runAddEntities st calls).2.autoLayoutOffset := by
  intro calls
  induction calls with
  | nil => intro st; exact Nat.le_refl _
  | cons c rest ih =>
    intro st
    obtain ⟨a, m⟩ := c
    rcases hE : addEntityCore a m st with ⟨r, st'⟩
    have hstep : st.autoLayoutOffset ≤ st'.autoLayoutOffset := by
      have := addEntityCore_offset a m st
      rw [hE] at this
      by_cases hs : (resolveEntityType a.entityType).isSome <;> simp [hs] at this <;> omega
    simp only [runAddEntities, hE]
    exact hstep.trans (ih st')

/-- Every auto-assigned x-coordinate in a run starting at counter value `c`
is at least `c × 120`. -/
theorem autoPlacedXs_lb :
    ∀ (calls : List (AddArgs × AddModify)) (st : ServerState),
      ∀ x ∈ autoPlacedXs st calls, (st.autoLayoutOffset : Int) * 120 ≤ x := by
  intro calls
  induction calls with
  | nil => intro st x hx; cases hx
  | cons c rest ih =>
    intro st x hx
    obtain ⟨a, m⟩ := c
    rcases hE : addEntityCore a m st with ⟨r, st'⟩
    have hmono : st.autoLayoutOffset ≤ st'.autoLayoutOffset := by
      have := addEntityCore_offset a m st
      rw [hE] at this
      by_cases hs : (resolveEntityType a.entityType).isSome <;> simp [hs] at this <;> omega
    have hcast : ((st.autoLayoutOffset : Int)) * 120 ≤ (st'.autoLayoutOffset : Int) * 120 := by
      have : (st.autoLayoutOffset : Int) ≤ (st'.autoLayoutOffset : Int) := by
        exact_mod_cast hmono
      nlinarith
    simp only [autoPlacedXs, hE] at hx
    rcases r with e | ⟨t, id, x0, y0⟩
    · exact hcast.trans (ih st' x hx)
    · cases hax : a.x with
      | some v =>
        simp only [hax] at hx
        exact hcast.trans (ih st' x hx)
      | none =>
        cases hay : a.y with
        | some v =>
          simp only [hax, hay] at hx
          exact hcast.trans (ih st' x hx)
        | none =>
          simp only [hax, hay, List.mem_cons] at hx
          rcases hx with rfl | hx
          · have := (addEntityCore_ok a m st t id x y0 (by rw [hE])).2 hax hay
            rw [this.1]
          · have hoff : st'.autoLayoutOffset = st.autoLayoutOffset + 1 := by
              have := (addEntityCore_ok a m st t id x0 y0 (by rw [hE])).1
              rw [hE] at this
              exact this
            have := ih st' x hx
            rw [hoff] at this
            have hc : (st.autoLayoutOffset : Int) * 120
                ≤ ((st.autoLayoutOffset + 1 : Nat) : Int) * 120 := by
              push_cast
              nlinarith
            exact hc.trans this

/-- The auto-assigned x-coordinates of one run are strictly increasing. -/
theorem autoPlacedXs_sorted :
    ∀ (calls : List (AddArgs × AddModify)) (st : ServerState),
      List.Pairwise (· < ·) (autoPlacedXs st calls) := by
  intro calls
  induction calls with
  | nil => intro st; exact List.Pairwise.nil
  | cons c rest ih =>
    intro st
    obtain ⟨a, m⟩ := c
    rcases hE : addEntityCore a m st with ⟨r, st'⟩
    simp only [autoPlacedXs, hE]
    rcases r with e | ⟨t, id, x0, y0⟩
    · exact ih st'
    · cases hax : a.x with
      | some v => exact ih st'
      | none =>
        cases hay : a.y with
        | some v => exact ih st'
        | none =>
          refine List.Pairwise.cons (fun x hx => ?_) (ih st')
          have hx0 : x0 = (st.autoLayoutOffset : Int) * 120 :=
            ((addEntityCore_ok a m st t id x0 y0 (by rw [hE])).2 hax hay).1
          have hoff : st'.autoLayoutOffset = st.autoLayoutOffset + 1 := by
            have := (addEntityCore_ok a m st t id x0 y0 (by rw [hE])).1
            rw [hE] at this
            exact this
          have hlb := autoPlacedXs_lb rest st' x hx
          rw [hoff] at hlb
          have : ((st.autoLayoutOffset + 1 : Nat) : Int) * 120
              = (st.autoLayoutOffset : Int) * 120 + 120 := by
            push_cast
            ring
          rw [this] at hlb
          rw [hx0]
          omega

/-- C3: the auto-layout counter increases by exactly one for every add-entity
call whose type resolves (in particular for every auto-placed entity) and
never decreases or resets within a run; a call omitting both coordinates is
placed at `(counter × 120, 0)` before the increment; two consecutive
coordinate-omitting calls that both create entities place the second at
`x = 120` when the first used `x = 0`; and the auto-assigned x-coordinates of
any run are pairwise distinct, so no two auto-placed entities ever coincide. -/
theorem c3_auto_layout_counter :
    (∀ (a : AddArgs) (m : AddModify) (st : ServerState),
       (addEntityCore a m st).2.autoLayoutOffset
         = if (resolveEntityType a.entityType).isSome
           then st.autoLayoutOffset + 1 else st.autoLayoutOffset) ∧
    (∀ (st : ServerState) (calls : List (AddArgs × AddModify)),
       st.autoLayoutOffset ≤ (runAddEntities st calls).2.autoLayoutOffset) ∧
    (∀ (a : AddArgs) (m : AddModify) (st : ServerState) (t id : String) (x y : Int),
       (addEntityCore a m st).1 = .ok (t, id, x, y) → a.x = none → a.y = none →
       x = (st.autoLayoutOffset : Int) * 120 ∧ y = 0 ∧
       (addEntityCore a m st).2.autoLayoutOffset = st.autoLayoutOffset + 1) ∧
    (∀ (st : ServerState) (a1 a2 : AddArgs) (m1 m2 : AddModify)
       (t1 t2 id1 id2 : String) (x1 y1 x2 y2 : Int),
       a1.x = none → a1.y = none → a2.x = none → a2.y = none →
       (runAddEntities st [(a1, m1), (a2, m2)]).1
         = [.ok (t1, id1, x1, y1), .ok (t2, id2, x2, y2)] →
       x1 = 0 → x2 = 120) ∧
    (∀ (st : ServerState) (calls : List (AddArgs × AddModify)),
       List.Pairwise (· ≠ ·) (autoPlacedXs st calls)) := by
  refine ⟨addEntityCore_offset, fun st calls => runAddEntities_offset_mono calls st,
    ?_, ?_, fun st calls => (autoPlacedXs_sorted calls st).imp ne_of_lt⟩
  · intro a m st t id x y h hax hay
    obtain ⟨hoff, hpos⟩ := addEntityCore_ok a m st t id x y h
    obtain ⟨hx, hy⟩ := hpos hax hay
    exact ⟨hx, hy, hoff⟩
  · intro st a1 a2 m1 m2 t1 t2 id1 id2 x1 y1 x2 y2 hax1 hay1 hax2 hay2 hrun hx1
    rcases hE1 : addEntityCore a1 m1 st with ⟨r1, st1⟩
    rcases hE2 : addEntityCore a2 m2 st1 with ⟨r2, st2⟩
    simp only [runAddEntities, hE1, hE2] at hrun
    obtain ⟨hr1, hr2⟩ := by
      simpa using hrun
    have h1 := addEntityCore_ok a1 m1 st t1 id1 x1 y1 (by rw [hE1, hr1])
    have h2 := addEntityCore_ok a2 m2 st1 t2 id2 x2 y2 (by rw [hE2, hr2])
    have hoff1 : st1.autoLayoutOffset = st.autoLayoutOffset + 1 := by
      have := h1.1
      rw [hE1] at this
      exact this
    have hx1e : x1 = (st.autoLayoutOffset : Int) * 120 := (h1.2 hax1 hay1).1
    have hx2e : x2 = (st1.autoLayoutOffset : Int) * 120 := (h2.2 hax2 hay2).1
    have hzero : st.autoLayoutOffset = 0 := by
      rw [hx1] at hx1e
      have : (st.autoLayoutOffset : Int) = 0 := by linarith [hx1e.symm.le, hx1e.symm.ge]
      exact_mod_cast this
    rw [hx2e, hoff1, hzero]
    decide

/-- C3 witness: a concrete coordinate-omitting call on a fresh counter is
placed at `(0, 0)` and advances the counter to 1. -/
theorem c3_witness :
    (0 : Int) = ((0 : Nat) : Int) * 120 ∧ (0 : Int) = 0 ∧
    (addEntityCore ⟨"heisenberg", none, none⟩ (.created "a")
        ⟨true, some ⟨true⟩, 0⟩).2.autoLayoutOffset = 0 + 1 := by
  exact c3_auto_layout_counter.2.2.1 ⟨"heisenberg", none, none⟩ (.created "a")
    ⟨true, some ⟨true⟩, 0⟩ "heisenberg" "a" 0 0 rfl rfl rfl

/-- C2 counterexample: when client creation rejects during initialize-session,
the handler's catch block logs and re-throws (line 690 of server.ts), so the
exception escapes the handler instead of becoming a ToolResult. -/
theorem c2_counterexample :
    (dispatch (.initSession "proj")
      ⟨⟨.error "createAudiotoolClient failed", .ok (), .ok (), ⟨true, []⟩⟩,
       ⟨.ok true, .ok (), .ok (), .ok (), true⟩, .created "e", .removed, .updated,
       .updated, []⟩
      ⟨false, none, 0⟩).1
    = .error "createAudiotoolClient failed" := rfl

/-- C2 (amended): every tool except initialize-session returns a structured
ToolResult for every input and environment — no exception crosses the tool
boundary there — with `isError: true` exactly on its failure paths: an
unresolvable entity type, a missing or disconnected document, a missing entity
or field, an inner throw, a rejected transaction, a failed login, or a failed
client / document creation / start; while the initialize-session handler
re-throws the failure of any of its awaited steps — client creation, document
creation, `start()`, or the connection timeout — letting that exception escape
to the dispatcher, and returns a non-error result only when all steps
succeed. -/
theorem c2_structured_results_except_init :
    (∀ (c : ToolCall) (env : ToolEnv) (st : ServerState),
       (∀ p, c ≠ .initSession p) →
       ∃ r, (dispatch c env st).1 = .ok r) ∧
    (∀ (p : Option String) (env : ToolEnv) (st : ServerState),
       resultIsError (dispatch (.openDocument p) env st).1 = false ↔
         ((st.haveClient = true ∨
           (env.open_.loginRes = .ok true ∧ env.open_.createClientRes = .ok ())) ∧
          env.open_.createDocRes = .ok () ∧ env.open_.startRes = .ok ())) ∧
    (∀ (a : AddArgs) (env : ToolEnv) (st : ServerState),
       resultIsError (dispatch (.addEntity a) env st).1 = false ↔
         ((resolveEntityType a.entityType).isSome ∧
          (∃ d, st.document = some d ∧ d.connected = true) ∧
          ∃ id, env.addM = AddModify.created id)) ∧
    (∀ (id : String) (deps : Bool) (env : ToolEnv) (st : ServerState),
       resultIsError (dispatch (.removeEntity id deps) env st).1 = false ↔
         ((∃ d, st.document = some d ∧ d.connected = true) ∧
          env.removeM = RemoveModify.removed)) ∧
    (∀ (id f : String) (v : Int) (env : ToolEnv) (st : ServerState),
       resultIsError (dispatch (.updateEntityValue id f v) env st).1 = false ↔
         ((∃ d, st.document = some d ∧ d.connected = true) ∧
          env.updValM = UpdateValueModify.updated)) ∧
    (∀ (id : String) (x y : Int) (env : ToolEnv) (st : ServerState),
       resultIsError (dispatch (.updateEntityPosition id x y) env st).1 = false ↔
         ((∃ d, st.document = some d ∧ d.connected = true) ∧
          env.updPosM = UpdatePositionModify.updated)) ∧
    (∀ (env : ToolEnv) (st : ServerState),
       resultIsError (dispatch .listEntities env st).1 = false ↔
         ∃ d, st.document = some d ∧ d.connected = true) ∧
    (∀ (d : String) (env : ToolEnv) (st : ServerState),
       resultIsError (dispatch (.recommendStyle d) env st).1 = false) ∧
    (∀ (p : String) (env : ToolEnv) (st : ServerState),
       (∀ m, env.init.createClientRes = .error m →
          (dispatch (.initSession p) env st).1 = .error m) ∧
       (∀ m, env.init.createClientRes = .ok () → env.init.createDocRes = .error m →
          (dispatch (.initSession p) env st).1 = .error m) ∧
       (∀ m, env.init.createClientRes = .ok () → env.init.createDocRes = .ok () →
          env.init.startRes = .error m →
          (dispatch (.initSession p) env st).1 = .error m) ∧
       (∀ m, env.init.createClientRes = .ok () → env.init.createDocRes = .ok () →
          env.init.startRes = .ok () →
          (waitForConnection env.init.conn).1 = .timedOut m →
          (dispatch (.initSession p) env st).1 = .error m) ∧
       (env.init.createClientRes = .ok () → env.init.createDocRes = .ok () →
          env.init.startRes = .ok () →
          (waitForConnection env.init.conn).1 = .resolvedOk →
          ∃ r, (dispatch (.initSession p) env st).1 = .ok r ∧ r.isError = false)) := by
  refine ⟨?_, ?_, ?_, ?_, ?_, ?_, ?_, ?_, ?_⟩
  · intro c env st h
    cases c with
    | initSession p => exact absurd rfl (h p)
    | openDocument p =>
      simp only [dispatch, openDocumentTool, getClient]
      repeat' split
      all_goals exact ⟨_, rfl⟩
    | addEntity a =>
      simp only [dispatch, addEntityTool]
      repeat' split
      all_goals exact ⟨_, rfl⟩
    | removeEntity id deps =>
      simp only [dispatch, removeEntityTool]
      repeat' split
      all_goals exact ⟨_, rfl⟩
    | updateEntityValue id f v =>
      simp only [dispatch, updateEntityValueTool]
      repeat' split
      all_goals exact ⟨_, rfl⟩
    | updateEntityPosition id x y =>
      simp only [dispatch, updateEntityPositionTool]
      repeat' split
      all_goals exact ⟨_, rfl⟩
    | listEntities =>
      simp only [dispatch, listEntitiesTool]
      repeat' split
      all_goals exact ⟨_, rfl⟩
    | recommendStyle d => exact ⟨_, rfl⟩
  · intro p env st
    cases hhc : st.haveClient with
    | true =>
      cases hcd : env.open_.createDocRes with
      | error m =>
        simp [dispatch, openDocumentTool, getClient, hhc, hcd,
          resultIsError, errorResult]
      | ok u =>
        cases u
        cases hst : env.open_.startRes with
        | error m =>
          simp [dispatch, openDocumentTool, getClient, hhc, hcd, hst,
            resultIsError, errorResult]
        | ok u =>
          cases u
          simp [dispatch, openDocumentTool, getClient, hhc, hcd, hst,
            resultIsError, textResult]
    | false =>
      cases hlg : env.open_.loginRes with
      | error m =>
        simp [dispatch, openDocumentTool, getClient, hhc, hlg,
          resultIsError, errorResult]
      | ok b =>
        cases b with
        | false =>
          simp [dispatch, openDocumentTool, getClient, hhc, hlg,
            resultIsError, errorResult]
        | true =>
          cases hcc : env.open_.createClientRes with
          | error m =>
            simp [dispatch, openDocumentTool, getClient, hhc, hlg, hcc,
              resultIsError, errorResult]
          | ok u =>
            cases u
            cases hcd : env.open_.createDocRes with
            | error m =>
              simp [dispatch, openDocumentTool, getClient, hhc, hlg, hcc, hcd,
                resultIsError, errorResult]
            | ok u =>
              cases u
              cases hst : env.open_.startRes with
              | error m =>
                simp [dispatch, openDocumentTool, getClient, hhc, hlg, hcc, hcd,
                  hst, resultIsError, errorResult]
              | ok u =>
                cases u
                simp [dispatch, openDocumentTool, getClient, hhc, hlg, hcc, hcd,
                  hst, resultIsError, textResult]
  · intro a env st
    cases hr : resolveEntityType a.entityType with
    | none =>
      simp [dispatch, addEntityTool, addEntityCore, hr, resultIsError, errorResult]
    | some t =>
      cases hdoc : st.document with
      | none =>
        have hd : ∀ (hc : Bool) (k : Nat), getDocument ⟨hc, none, k⟩
            = .error
              "No document open. Use the 'initialize-session' tool to open a project first." := by
          intro hc k
          rfl
        simp [dispatch, addEntityTool, addEntityCore, hr, hd, hdoc,
          resultIsError, errorResult]
      | some d =>
        cases hcon : d.connected with
        | false =>
          have hd : ∀ (hc : Bool) (k : Nat), getDocument ⟨hc, some d, k⟩
              = .error "Document is not connected. The connection may have been lost." := by
            intro hc k
            simp [getDocument, hcon]
          simp [dispatch, addEntityTool, addEntityCore, hr, hd, hdoc, hcon,
            resultIsError, errorResult]
        | true =>
          have hd : ∀ (hc : Bool) (k : Nat), getDocument ⟨hc, some d, k⟩ = .ok d := by
            intro hc k
            simp [getDocument, hcon]
          cases hm : env.addM <;>
            simp [dispatch, addEntityTool, addEntityCore, hr, hd, hm, hdoc, hcon,
              resultIsError, errorResult, textResult]
  · intro id deps env st
    cases hdoc : st.document with
    | none =>
      have hd : getDocument st = .error
          "No document open. Use the 'initialize-session' tool to open a project first." := by
        simp [getDocument, hdoc]
      simp [dispatch, removeEntityTool, hd, hdoc, resultIsError, errorResult]
    | some d =>
      cases hcon : d.connected with
      | false =>
        have hd : getDocument st
            = .error "Document is not connected. The connection may have been lost." := by
          simp [getDocument, hdoc, hcon]
        simp [dispatch, removeEntityTool, hd, hdoc, hcon, resultIsError, errorResult]
      | true =>
        have hd : getDocument st = .ok d := by
          simp [getDocument, hdoc, hcon]
        cases hm : env.removeM <;>
          simp [dispatch, removeEntityTool, hd, hm, hdoc, hcon,
            resultIsError, errorResult, textResult]
  · intro id f v env st
    cases hdoc : st.document with
    | none =>
      have hd : getDocument st = .error
          "No document open. Use the 'initialize-session' tool to open a project first." := by
        simp [getDocument, hdoc]
      simp [dispatch, updateEntityValueTool, hd, hdoc, resultIsError, errorResult]
    | some d =>
      cases hcon : d.connected with
      | false =>
        have hd : getDocument st
            = .error "Document is not connected. The connection may have been lost." := by
          simp [getDocument, hdoc, hcon]
        simp [dispatch, updateEntityValueTool, hd, hdoc, hcon, resultIsError, errorResult]
      | true =>
        have hd : getDocument st = .ok d := by
          simp [getDocument, hdoc, hcon]
        cases hm : env.updValM <;>
          simp [dispatch, updateEntityValueTool, hd, hm, hdoc, hcon,
            resultIsError, errorResult, textResult]
  · intro id x y env st
    cases hdoc : st.document with
    | none =>
      have hd : getDocument st = .error
          "No document open. Use the 'initialize-session' tool to open a project first." := by
        simp [getDocument, hdoc]
      simp [dispatch, updateEntityPositionTool, hd, hdoc, resultIsError, errorResult]
    | some d =>
      cases hcon : d.connected with
      | false =>
        have hd : getDocument st
            = .error "Document is not connected. The connection may have been lost." := by
          simp [getDocument, hdoc, hcon]
        simp [dispatch, updateEntityPositionTool, hd, hdoc, hcon,
          resultIsError, errorResult]
      | true =>
        have hd : getDocument st = .ok d := by
          simp [getDocument, hdoc, hcon]
        cases hm : env.updPosM <;>
          simp [dispatch, updateEntityPositionTool, hd, hm, hdoc, hcon,
            resultIsError, errorResult, textResult]
  · intro env st
    cases hdoc : st.document with
    | none =>
      have hd : getDocument st = .error
          "No document open. Use the 'initialize-session' tool to open a project first." := by
        simp [getDocument, hdoc]
      simp [dispatch, listEntitiesTool, hd, hdoc, resultIsError, errorResult]
    | some d =>
      cases hcon : d.connected with
      | false =>
        have hd : getDocument st
            = .error "Document is not connected. The connection may have been lost." := by
          simp [getDocument, hdoc, hcon]
        simp [dispatch, listEntitiesTool, hd, hdoc, hcon, resultIsError, errorResult]
      | true =>
        have hd : getDocument st = .ok d := by
          simp [getDocument, hdoc, hcon]
        simp [dispatch, listEntitiesTool, hd, hdoc, hcon, resultIsError, textResult]
  · intro d env st
    rfl
  · intro p env st
    refine ⟨?_, ?_, ?_, ?_, ?_⟩
    · intro m h
      simp [dispatch, initSessionTool, h]
    · intro m hc h
      simp [dispatch, initSessionTool, hc, h]
    · intro m hc hd h
      simp [dispatch, initSessionTool, hc, hd, h]
    · intro m hc hd hs hw
      rcases hwc : waitForConnection env.init.conn with ⟨o, sub⟩
      rw [hwc] at hw
      simp only at hw
      subst hw
      simp [dispatch, initSessionTool, hc, hd, hs, hwc]
    · intro hc hd hs hw
      rcases hwc : waitForConnection env.init.conn with ⟨o, sub⟩
      rw [hwc] at hw
      simp only at hw
      subst hw
      simp only [dispatch, initSessionTool, hc, hd, hs, hwc]
      exact ⟨_, rfl, rfl⟩

/-- C2 witness: a non-initialize-session call returns a structured result; a
document-requiring call without an open document observes `isError: true`; and
a concrete initialize-session whose connection wait times out escapes with
that timeout error. -/
theorem c2_witness :
    (∃ r, (dispatch (.recommendStyle "warm pad")
        ⟨⟨.ok (), .ok (), .ok (), ⟨true, []⟩⟩,
         ⟨.ok true, .ok (), .ok (), .ok (), true⟩, .created "e", .removed, .updated,
         .updated, []⟩
        ⟨false, none, 0⟩).1 = .ok r) ∧
    resultIsError (dispatch .listEntities
        ⟨⟨.ok (), .ok (), .ok (), ⟨true, []⟩⟩,
         ⟨.ok true, .ok (), .ok (), .ok (), true⟩, .created "e", .removed, .updated,
         .updated, []⟩
        ⟨false, none, 0⟩).1 = true ∧
    (dispatch (.initSession "proj")
        ⟨⟨.ok (), .ok (), .ok (), ⟨false, []⟩⟩,
         ⟨.ok true, .ok (), .ok (), .ok (), true⟩, .created "e", .removed, .updated,
         .updated, []⟩
        ⟨false, none, 0⟩).1 = .error "Connection timeout after 10 seconds" := by
  refine ⟨c2_structured_results_except_init.1 _ _ _ (fun _ h => ToolCall.noConfusion h),
    ?_, ?_⟩
  · have hiff := c2_structured_results_except_init.2.2.2.2.2.2.1
      ⟨⟨.ok (), .ok (), .ok (), ⟨true, []⟩⟩,
       ⟨.ok true, .ok (), .ok (), .ok (), true⟩, .created "e", .removed, .updated,
       .updated, []⟩
      ⟨false, none, 0⟩
    cases h : resultIsError (dispatch .listEntities
        ⟨⟨.ok (), .ok (), .ok (), ⟨true, []⟩⟩,
         ⟨.ok true, .ok (), .ok (), .ok (), true⟩, .created "e", .removed, .updated,
         .updated, []⟩
        ⟨false, none, 0⟩).1 with
    | true => rfl
    | false =>
      obtain ⟨d, hd, -⟩ := hiff.mp h
      cases hd
  · exact (c2_structured_results_except_init.2.2.2.2.2.2.2.2 "proj" _ _).2.2.2.1
      "Connection timeout after 10 seconds" rfl rfl rfl rfl
